import Mathlib

/-!
Shallow embedding of the boompah-connect WordPress REST client
(src/common/api_client.py and src/wordpress/client.py), together with the
request-building logic of the template project's configuration validation
(src/templates/wordpress_project/config.py). Python strings are Lean
strings, Python dicts are association lists with first-match lookup and
key-replacing update, Python JSON values are the inductive `Json` below,
and the external HTTP transport (the requests library) is abstracted as a
response record plus a JSON-decoding oracle passed in as a parameter.
-/

namespace BoompahConnect

/-- A JSON value, as decoded from an HTTP response body or placed into a
request body / query-parameter mapping. Mirrors the Python values the
client actually puts in these positions: strings, integers, integer
lists, nested objects, booleans and null. -/
inductive Json where
  | null : Json
  | bool : Bool → Json
  | num : Int → Json
  | str : String → Json
  | arr : List Json → Json
  | obj : List (String × Json) → Json

/-- An HTTP response as seen by `APIClient._request`: a status code and the
body text. All other response fields are irrelevant to the embedded logic. -/
structure HTTPResponse where
  status : Nat
  bodyText : String
deriving DecidableEq, Repr

/-- Python `str.lstrip(c)` for a single strip character: drop every leading
occurrence of `c`. -/
def pyLstrip (c : Char) (s : String) : String :=
  String.mk (s.toList.dropWhile (fun d => d = c))

/-- Python `str.rstrip(c)` for a single strip character: drop every trailing
occurrence of `c`. -/
def pyRstrip (c : Char) (s : String) : String :=
  String.mk ((s.toList.reverse.dropWhile (fun d => d = c)).reverse)

/-- URL construction of `APIClient`: `__init__` stores
`base_url.rstrip('/')` (api_client.py line 24) and `_request` builds
`f"{self.base_url}/{endpoint.lstrip('/')}"` (api_client.py line 53). -/
def buildUrl (baseUrl endpoint : String) : String :=
  pyRstrip '/' baseUrl ++ "/" ++ pyLstrip '/' endpoint

/-- The response-handling tail of `APIClient._request`
(api_client.py lines 70-86). `raise_for_status` raises an HTTPError for a
status code in [400, 600); the handler computes a diagnostic detail and
re-raises the HTTPError, which carries the response. On success the body
is decoded as JSON; a decode failure (`ValueError`) yields the empty
mapping. `parse` abstracts `response.json()` of the requests library:
`none` models a decode failure. -/
def handleResponse (parse : String → Option Json) (r : HTTPResponse) :
    Except HTTPResponse Json :=
  if 400 ≤ r.status ∧ r.status < 600 then
    Except.error r
  else
    match parse r.bodyText with
    | some j => Except.ok j
    | none => Except.ok (Json.obj [])

/-- The diagnostic detail computed in the HTTPError handler of
`APIClient._request` (api_client.py lines 76-80) from the response carried
by the raised error: the body decoded as JSON when that succeeds, the raw
body text otherwise. -/
def errorDetail (parse : String → Option Json) (r : HTTPResponse) : Json :=
  match parse r.bodyText with
  | some j => j
  | none => Json.str r.bodyText

/-- One step of Python `dict.update`: set key `k` to `v`, replacing the
value at an existing key in place and appending a new key at the end. -/
def dictInsert (d : List (String × String)) (k v : String) :
    List (String × String) :=
  if d.any (fun p => p.1 = k) then
    d.map (fun p => if p.1 = k then (p.1, v) else p)
  else
    d ++ [(k, v)]

/-- Python `d.update(o)`: insert every pair of `o` into `d` in order. -/
def dictUpdate (d o : List (String × String)) : List (String × String) :=
  o.foldl (fun acc p => dictInsert acc p.1 p.2) d

/-- `APIClient._get_default_headers` (api_client.py lines 88-99). -/
def defaultHeaders : List (String × String) :=
  [("Content-Type", "application/json"),
   ("Accept", "application/json"),
   ("User-Agent", "BoomPahConnect/0.1.0")]

/-- The effective headers of `APIClient._request` (api_client.py lines
55-57): the defaults, updated key-by-key with the caller-supplied
overrides when any are given. -/
def effectiveHeaders (overrides : List (String × String)) :
    List (String × String) :=
  dictUpdate defaultHeaders overrides

/-- Python truthiness of an `Optional[str]` argument: `None` and the empty
string are falsy. -/
def strTruthy : Option String → Bool
  | none => false
  | some s => !s.isEmpty

/-- Python truthiness of an `Optional[List[int]]` argument: `None` and the
empty list are falsy. -/
def listTruthy : Option (List Int) → Bool
  | none => false
  | some l => !l.isEmpty

/-- Python truthiness of an `Optional[int]` argument: `None` and `0` are
falsy. -/
def intTruthy : Option Int → Bool
  | none => false
  | some n => n ≠ 0

/-- UTF-8 encoding of a single code point, as Python `str.encode()`
produces for each character. -/
def utf8Bytes (c : Nat) : List Nat :=
  if c < 128 then [c]
  else if c < 2048 then [192 + c / 64, 128 + c % 64]
  else if c < 65536 then [224 + c / 4096, 128 + (c / 64) % 64, 128 + c % 64]
  else [240 + c / 262144, 128 + (c / 4096) % 64, 128 + (c / 64) % 64,
        128 + c % 64]

/-- Python `str.encode()`: the UTF-8 bytes of a string. -/
def strBytes (s : String) : List Nat :=
  (s.toList.map (fun c => utf8Bytes c.toNat)).flatten

/-- The standard base64 alphabet, indexed by sextet value. -/
def b64Char (n : Nat) : Char :=
  "ABCDEFGHIJKLMNOPQRSTUVWXYZabcdefghijklmnopqrstuvwxyz0123456789+/".toList.getD n 'A'

/-- Standard base64 of a byte sequence with `=` padding, as
`base64.b64encode` computes. -/
def b64encodeBytes : List Nat → List Char
  | [] => []
  | [a] => [b64Char (a / 4), b64Char (a % 4 * 16), '=', '=']
  | [a, b] => [b64Char (a / 4), b64Char (a % 4 * 16 + b / 16),
               b64Char (b % 16 * 4), '=']
  | a :: b :: c :: rest =>
      b64Char (a / 4) :: b64Char (a % 4 * 16 + b / 16) ::
      b64Char (b % 16 * 4 + c / 64) :: b64Char (c % 64) ::
      b64encodeBytes rest

/-- Python `base64.b64encode(s.encode()).decode()`. -/
def b64encode (s : String) : String :=
  String.mk (b64encodeBytes (strBytes s))

/-- The Authorization header configured by `WordPressClient.__init__`
(client.py lines 44-50): Basic when `username and password` is truthy,
otherwise Bearer when `auth_token` is truthy, otherwise no header. -/
def authHeader (username password authToken : Option String) :
    Option String :=
  if strTruthy username && strTruthy password then
    some ("Basic " ++
      b64encode (username.getD "" ++ ":" ++ password.getD ""))
  else if strTruthy authToken then
    some ("Bearer " ++ authToken.getD "")
  else
    none

/-- The state a `WordPressClient` holds after construction. -/
structure WPClientState where
  baseUrl : String
  username : Option String
  password : Option String
  authToken : Option String
  userAgent : Option String
  sessionAuthHeader : Option String

/-- `WordPressClient.__init__` (client.py lines 17-50). The constructor
body contains no raise statement: it stores the arguments, strips the
base URL's trailing slashes (via `APIClient.__init__`), and configures the
session's Authorization header from whichever credentials are truthy.
The `Except` result records that construction can only succeed. -/
def wpInit (baseUrl : String)
    (username password authToken userAgent : Option String) :
    Except String WPClientState :=
  Except.ok
    ⟨pyRstrip '/' baseUrl, username, password, authToken, userAgent,
     authHeader username password authToken⟩

/-- The configuration validation of the template project
(src/templates/wordpress_project/config.py lines 21-26), run at module
load: a missing base URL, or missing both authentication schemes, raises
a ValueError before any client is constructed. -/
def configValidate (wpBaseUrl wpUsername wpPassword wpAuthToken :
    Option String) : Except String Unit :=
  if !(strTruthy wpBaseUrl) then
    Except.error "WP_BASE_URL environment variable is required"
  else if !(strTruthy wpUsername && strTruthy wpPassword) &&
      !(strTruthy wpAuthToken) then
    Except.error
      "Either WP_USERNAME and WP_PASSWORD or WP_AUTH_TOKEN environment variables are required"
  else
    Except.ok ()

/-- Python `",".join(map(str, ids))` for a list of integers. -/
def commaJoin (ids : List Int) : String :=
  String.intercalate "," (ids.map toString)

/-- The query parameters built by `WordPressClient.get_posts`
(client.py lines 92-105): `per_page`, `page` and `status` always; `search`
when truthy; `categories` and `tags` comma-joined when truthy. -/
def getPostsParams (limit page : Int) (search : Option String)
    (categories tags : Option (List Int)) (status : String) :
    List (String × Json) :=
  let ps := [("per_page", Json.num limit), ("page", Json.num page),
             ("status", Json.str status)]
  let ps := if strTruthy search then
    ps ++ [("search", Json.str (search.getD ""))] else ps
  let ps := if listTruthy categories then
    ps ++ [("categories", Json.str (commaJoin (categories.getD [])))] else ps
  if listTruthy tags then
    ps ++ [("tags", Json.str (commaJoin (tags.getD [])))] else ps

/-- The JSON body built by `WordPressClient.update_post`
(client.py lines 193-214): each optional field is added only when its
argument is truthy. -/
def updatePostBody (title content status excerpt : Option String)
    (categories tags : Option (List Int)) (featuredMedia : Option Int) :
    List (String × Json) :=
  let d : List (String × Json) := []
  let d := if strTruthy title then
    d ++ [("title", Json.str (title.getD ""))] else d
  let d := if strTruthy content then
    d ++ [("content", Json.str (content.getD ""))] else d
  let d := if strTruthy status then
    d ++ [("status", Json.str (status.getD ""))] else d
  let d := if strTruthy excerpt then
    d ++ [("excerpt", Json.str (excerpt.getD ""))] else d
  let d := if listTruthy categories then
    d ++ [("categories", Json.arr ((categories.getD []).map Json.num))] else d
  let d := if listTruthy tags then
    d ++ [("tags", Json.arr ((tags.getD []).map Json.num))] else d
  if intTruthy featuredMedia then
    d ++ [("featured_media", Json.num (featuredMedia.getD 0))] else d

/-- The endpoint `update_post` posts to: `f"wp/v2/posts/{post_id}"`
(client.py line 216). -/
def updatePostEndpoint (postId : Int) : String :=
  "wp/v2/posts/" ++ toString postId

/-- Python `os.path.basename` on a POSIX path: the part after the last
slash. -/
def pyBasename (p : String) : String :=
  String.mk ((p.toList.reverse.takeWhile (fun c => c ≠ '/')).reverse)

/-- The lowercased extension of a path's basename: the part after the last
dot, or the empty string when the basename has no dot. Models how
`mimetypes.guess_type` selects the extension to look up. -/
def extOf (p : String) : String :=
  let b := (pyBasename p).toList
  let r := b.reverse.takeWhile (fun c => c ≠ '.')
  if r.length = b.length then ""
  else String.mk (r.reverse.map Char.toLower)

/-- Model of the Python `mimetypes` table, restricted to common entries;
an extension outside the table yields no guess, which `upload_media`
replaces by `application/octet-stream`. -/
def mimeTable : List (String × String) :=
  [("png", "image/png"), ("jpg", "image/jpeg"), ("jpeg", "image/jpeg"),
   ("gif", "image/gif"), ("webp", "image/webp"), ("svg", "image/svg+xml"),
   ("pdf", "application/pdf"), ("txt", "text/plain"),
   ("html", "text/html"), ("json", "application/json"),
   ("mp4", "video/mp4"), ("mp3", "audio/mpeg")]

/-- Python `mimetypes.guess_type(path)[0]`, over the modelled table. -/
def guessType (p : String) : Option String :=
  List.lookup (extOf p) mimeTable

/-- The headers `upload_media` attaches to the binary POST
(client.py lines 291-301): a Content-Disposition naming the file's
basename and a Content-Type from the guessed MIME type, defaulting to
`application/octet-stream`. -/
def uploadHeaders (filePath : String) : List (String × String) :=
  [("Content-Disposition",
    "attachment; filename=\"" ++ pyBasename filePath ++ "\""),
   ("Content-Type", (guessType filePath).getD "application/octet-stream")]

/-- The metadata body `upload_media` builds for the follow-up POST
(client.py lines 311-320): each of title, caption and alt_text is added
only when truthy. -/
def uploadMetadata (title caption altText : Option String) :
    List (String × Json) :=
  let m : List (String × Json) := []
  let m := if strTruthy title then
    m ++ [("title", Json.str (title.getD ""))] else m
  let m := if strTruthy caption then
    m ++ [("caption", Json.str (caption.getD ""))] else m
  if strTruthy altText then
    m ++ [("alt_text", Json.str (altText.getD ""))] else m

/-- The response-selection logic of `upload_media`
(client.py lines 306-325), abstracted over the two transport responses:
after the binary POST returns `resp1`, a metadata POST is issued exactly
when `title or caption or alt_text` is truthy and the built metadata
mapping is nonempty, and then its response `resp2` is returned; otherwise
`resp1` is returned. The second component counts the POSTs issued. -/
def uploadMediaFlow (title caption altText : Option String)
    (resp1 resp2 : Json) : Json × Nat :=
  if strTruthy title || strTruthy caption || strTruthy altText then
    let metadata := uploadMetadata title caption altText
    if !metadata.isEmpty then (resp2, 2) else (resp1, 1)
  else
    (resp1, 1)

/-- The head surviving `dropWhile p` never satisfies `p`. -/
theorem dropWhile_head?_not (p : Char → Bool) (l : List Char) (a : Char)
    (h : (l.dropWhile p).head? = some a) : p a = false := by
  induction l with
  | nil => simp [List.dropWhile_nil] at h
  | cons x xs ih =>
    rw [List.dropWhile_cons] at h
    split at h
    · exact ih h
    · rename_i hx
      rw [List.head?_cons, Option.some.injEq] at h
      subst h
      simpa using hx

/-- Claim C1: for every 4xx/5xx response, `APIClient._request` raises an
error that carries the status code and the error detail: the raised
HTTPError carries the response unchanged (hence its status code), and the
detail obtained from that response equals the body decoded as JSON when
the body parses, and the raw body text otherwise. -/
theorem request_error_carries_status_and_detail
    (parse : String → Option Json) (r : HTTPResponse)
    (h4 : 400 ≤ r.status) (h6 : r.status < 600) :
    handleResponse parse r = Except.error r ∧
    (∀ j, parse r.bodyText = some j → errorDetail parse r = j) ∧
    (parse r.bodyText = none → errorDetail parse r = Json.str r.bodyText) := by
  refine ⟨?_, ?_, ?_⟩
  · rw [handleResponse, if_pos ⟨h4, h6⟩]
  · intro j hj
    rw [errorDetail, hj]
  · intro hn
    rw [errorDetail, hn]

/-- Witness for C1 at a concrete 404 with a non-JSON body. -/
theorem request_error_carries_status_and_detail_witness :
    handleResponse (fun _ => none) (HTTPResponse.mk 404 "Not Found") =
      Except.error (HTTPResponse.mk 404 "Not Found") :=
  (request_error_carries_status_and_detail (fun _ => none)
    (HTTPResponse.mk 404 "Not Found") (by decide) (by decide)).1

/-- Claim C3: for every 2xx response, `APIClient._request` does not raise:
when the body fails to decode as JSON (e.g. it is empty) the result is the
empty mapping, and when it decodes the result is the decoded value. -/
theorem request_success_lenient_decode
    (parse : String → Option Json) (r : HTTPResponse)
    (h2 : 200 ≤ r.status) (h9 : r.status ≤ 299) :
    (parse r.bodyText = none →
      handleResponse parse r = Except.ok (Json.obj [])) ∧
    (∀ j, parse r.bodyText = some j →
      handleResponse parse r = Except.ok j) := by
  have hne : ¬(400 ≤ r.status ∧ r.status < 600) := by omega
  refine ⟨?_, ?_⟩
  · intro hn
    rw [handleResponse, if_neg hne, hn]
  · intro j hj
    rw [handleResponse, if_neg hne, hj]

/-- Witness for C3 at a concrete 200 with an empty, non-JSON body. -/
theorem request_success_lenient_decode_witness :
    handleResponse (fun _ => none) (HTTPResponse.mk 200 "") =
      Except.ok (Json.obj []) :=
  (request_success_lenient_decode (fun _ => none)
    (HTTPResponse.mk 200 "") (by decide) (by decide)).1 rfl

/-- Counterexample to claim C2: constructing a `WordPressClient` with
neither a username/password pair nor an auth token does not raise a
configuration error — construction succeeds and simply configures no
Authorization header. -/
theorem wpInit_no_credentials_succeeds :
    wpInit "https://example.com/wp-json" none none none none =
      Except.ok ⟨"https://example.com/wp-json", none, none, none, none,
        none⟩ := by
  rfl

/-- Claim C2 as amended: constructing a `WordPressClient` with neither
username/password nor an auth token succeeds without raising and sets no
Authorization header; the configuration error for missing credentials is
raised instead by the template project's config module at load time,
before any client is constructed. -/
theorem wpInit_defers_credential_validation
    (baseUrl : String) (userAgent : Option String) :
    wpInit baseUrl none none none userAgent =
      Except.ok ⟨pyRstrip '/' baseUrl, none, none, none, userAgent,
        none⟩ ∧
    configValidate (some "https://example.com/wp-json") none none none =
      Except.error
        "Either WP_USERNAME and WP_PASSWORD or WP_AUTH_TOKEN environment variables are required" := by
  exact ⟨rfl, rfl⟩

/-- Claim C4: for every base URL and endpoint, whatever leading or
trailing slashes they carry, the URL the client builds is a left part not
ending in a slash, exactly one separating slash, and a right part not
starting with a slash. -/
theorem buildUrl_single_separator (baseUrl endpoint : String) :
    ∃ b e : List Char,
      (buildUrl baseUrl endpoint).toList = b ++ '/' :: e ∧
      b.getLast? ≠ some '/' ∧ e.head? ≠ some '/' := by
  refine ⟨(pyRstrip '/' baseUrl).toList, (pyLstrip '/' endpoint).toList,
    ?_, ?_, ?_⟩
  · show (pyRstrip '/' baseUrl ++ "/" ++ pyLstrip '/' endpoint).data = _
    rw [String.data_append, String.data_append]
    simp [String.toList]
  · rw [show (pyRstrip '/' baseUrl).toList =
        (baseUrl.toList.reverse.dropWhile (fun d => d = '/')).reverse
        from rfl, List.getLast?_reverse]
    intro h
    have hp := dropWhile_head?_not _ _ _ h
    simp at hp
  · rw [show (pyLstrip '/' endpoint).toList =
        endpoint.toList.dropWhile (fun d => d = '/') from rfl]
    intro h
    have hp := dropWhile_head?_not _ _ _ h
    simp at hp

/-- Replacing the value stored at key `k` leaves lookups at other keys
unchanged. -/
theorem lookup_map_replace_ne (d : List (String × String)) (k v k' : String)
    (hne : k' ≠ k) :
    List.lookup k' (d.map (fun p => if p.1 = k then (p.1, v) else p)) =
      List.lookup k' d := by
  induction d with
  | nil => rfl
  | cons p d ih =>
    obtain ⟨pk, pv⟩ := p
    by_cases hp : pk = k
    · subst hp
      have hb : (k' == pk) = false := beq_false_of_ne hne
      simp [List.lookup_cons, hb, ih]
    · have hif : ((pk, pv) : String × String).1 = k ↔ False := by simp [hp]
      cases hbk : k' == pk <;>
        simp only [List.map_cons, hif, if_false, iff_false, if_neg hp,
          List.lookup_cons, hbk, ih]

/-- When some entry holds key `k`, replacing its value makes the lookup at
`k` return the new value. -/
theorem lookup_map_replace_eq (d : List (String × String)) (k v : String)
    (hmem : d.any (fun p => p.1 = k) = true) :
    List.lookup k (d.map (fun p => if p.1 = k then (p.1, v) else p)) =
      some v := by
  induction d with
  | nil => simp at hmem
  | cons p d ih =>
    obtain ⟨pk, pv⟩ := p
    by_cases hp : pk = k
    · subst hp
      simp [List.lookup_cons]
    · have hb : (k == pk) = false := beq_false_of_ne fun h => hp h.symm
      have hmem' : d.any (fun p => p.1 = k) = true := by
        rw [List.any_cons] at hmem
        rcases Bool.or_eq_true_iff.mp hmem with h1 | h2
        · exact absurd (of_decide_eq_true h1) hp
        · exact h2
      have hgoal := ih hmem'
      simp only [List.map_cons, if_neg hp, List.lookup_cons, hb]
      exact hgoal

/-- A key no entry holds looks up to nothing. -/
theorem lookup_eq_none_of_not_any (d : List (String × String)) (k : String)
    (h : d.any (fun p => p.1 = k) = false) :
    List.lookup k d = none := by
  induction d with
  | nil => rfl
  | cons p d ih =>
    obtain ⟨pk, pv⟩ := p
    rw [List.any_cons, Bool.or_eq_false_iff] at h
    have hne : pk ≠ k := by simpa using h.1
    have hb : (k == pk) = false := beq_false_of_ne fun hh => hne hh.symm
    simp only [List.lookup_cons, hb]
    exact ih h.2

/-- Lookup after one `dict.update` step: the inserted key now holds the
new value, every other key is untouched. -/
theorem lookup_dictInsert (d : List (String × String)) (k v k' : String) :
    List.lookup k' (dictInsert d k v) =
      if k' = k then some v else List.lookup k' d := by
  rw [dictInsert]
  split
  · rename_i hany
    by_cases hk : k' = k
    · subst hk
      rw [if_pos rfl]
      exact lookup_map_replace_eq d k' v hany
    · rw [if_neg hk]
      exact lookup_map_replace_ne d k v k' hk
  · rename_i hany
    have hany' : d.any (fun p => p.1 = k) = false := by
      rwa [Bool.not_eq_true] at hany
    rw [List.lookup_append]
    by_cases hk : k' = k
    · subst hk
      rw [lookup_eq_none_of_not_any d k' hany', if_pos rfl, Option.none_or]
      simp [List.lookup_cons]
    · rw [if_neg hk]
      have hsingle : List.lookup k' [(k, v)] = none := by
        simp [List.lookup_cons, beq_false_of_ne hk]
      rw [hsingle, Option.or_none]

/-- Lookup after a whole `dict.update`: an overridden key yields the
override, any other key yields what the base dictionary held. -/
theorem lookup_dictUpdate (o : List (String × String)) :
    ∀ (d : List (String × String)) (k : String),
      (o.map Prod.fst).Nodup →
      List.lookup k (dictUpdate d o) =
        (List.lookup k o).or (List.lookup k d) := by
  induction o with
  | nil =>
    intro d k _
    simp [dictUpdate, Option.none_or]
  | cons p o ih =>
    intro d k hnd
    obtain ⟨pk, pv⟩ := p
    rw [List.map_cons, List.nodup_cons] at hnd
    have hstep : dictUpdate d ((pk, pv) :: o) =
        dictUpdate (dictInsert d pk pv) o := rfl
    rw [hstep, ih _ k hnd.2, lookup_dictInsert]
    by_cases hk : k = pk
    · subst hk
      have ho : List.lookup k o = none := by
        rw [List.lookup_eq_none_iff]
        intro q hq
        have hmm : q.1 ∈ o.map Prod.fst := List.mem_map_of_mem Prod.fst hq
        have hne : k ≠ q.1 := fun h => hnd.1 (by rw [h]; exact hmm)
        simpa using hne
      simp [ho, List.lookup_cons, Option.none_or]
    · have hb : (k == pk) = false := beq_false_of_ne hk
      simp [List.lookup_cons, hb, hk]

/-- Claim C5: for every set of caller-supplied header overrides (a Python
dict, so with distinct keys), the effective headers of
`APIClient._request` look up to the override where one is given and to
the default otherwise, and every default key stays present. -/
theorem effectiveHeaders_override_merge (overrides : List (String × String))
    (hnd : (overrides.map Prod.fst).Nodup) :
    (∀ k, List.lookup k (effectiveHeaders overrides) =
      (List.lookup k overrides).or (List.lookup k defaultHeaders)) ∧
    (∀ k, (List.lookup k defaultHeaders).isSome = true →
      (List.lookup k (effectiveHeaders overrides)).isSome = true) := by
  refine ⟨fun k => lookup_dictUpdate overrides defaultHeaders k hnd, ?_⟩
  intro k hk
  rw [show effectiveHeaders overrides = dictUpdate defaultHeaders overrides
    from rfl, lookup_dictUpdate overrides defaultHeaders k hnd]
  cases h : List.lookup k overrides
  · simpa [Option.none_or] using hk
  · rfl

/-- Witness for C5: overriding Content-Type keeps the default Accept
header present with its default value. -/
theorem effectiveHeaders_override_merge_witness :
    List.lookup "Accept" (effectiveHeaders [("Content-Type", "text/plain")]) =
      some "application/json" := by
  rw [(effectiveHeaders_override_merge [("Content-Type", "text/plain")]
    (by decide)).1 "Accept"]
  rfl

/-- Claim C6, evaluated at the failing input `update_post(post_id=7,
title="")` and at the spec's own example `update_post(post_id=7,
title="New")`: an explicitly supplied empty-string title is silently
dropped by the truthiness check, so the body sent is the empty mapping
rather than a mapping containing the supplied field; the truthy example
behaves exactly as the claim states. -/
theorem updatePost_empty_title_dropped :
    updatePostBody (some "") none none none none none none = [] ∧
    updatePostBody (some "New") none none none none none none =
      [("title", Json.str "New")] ∧
    updatePostEndpoint 7 = "wp/v2/posts/7" :=
  ⟨rfl, rfl, by decide⟩

/-- Counterexample to claim C7: `get_posts` called with an explicitly
supplied empty search string produces no `search` key, refuting the
"if and only if the argument was provided" direction. -/
theorem getPosts_supplied_empty_search_omitted :
    getPostsParams 10 1 (some "") none none "publish" =
      [("per_page", Json.num 10), ("page", Json.num 1),
       ("status", Json.str "publish")] := rfl

/-- Claim C7 as amended: `get_posts` always sends `per_page`, `page` and
`status`, and sends `search`, `categories`, `tags` exactly when the
corresponding argument is truthy (a non-empty string or a non-empty
list), the id lists serialized as comma-joined decimal strings; the
spec's concrete example `get_posts(limit=5, page=2)` yields exactly the
three always-present parameters. -/
theorem getPosts_params_spec (limit page : Int) (search : Option String)
    (categories tags : Option (List Int)) (status : String) :
    List.lookup "per_page" (getPostsParams limit page search categories tags status) = some (Json.num limit) ∧
    List.lookup "page" (getPostsParams limit page search categories tags status) = some (Json.num page) ∧
    List.lookup "status" (getPostsParams limit page search categories tags status) = some (Json.str status) ∧
    List.lookup "search" (getPostsParams limit page search categories tags status) =
      (if strTruthy search then some (Json.str (search.getD "")) else none) ∧
    List.lookup "categories" (getPostsParams limit page search categories tags status) =
      (if listTruthy categories then some (Json.str (commaJoin (categories.getD []))) else none) ∧
    List.lookup "tags" (getPostsParams limit page search categories tags status) =
      (if listTruthy tags then some (Json.str (commaJoin (tags.getD []))) else none) ∧
    getPostsParams 5 2 none none none "publish" =
      [("per_page", Json.num 5), ("page", Json.num 2), ("status", Json.str "publish")] := by
  cases hs : strTruthy search <;> cases hc : listTruthy categories <;>
      cases ht : listTruthy tags <;>
    refine ⟨?_, ?_, ?_, ?_, ?_, ?_, rfl⟩ <;>
    simp [getPostsParams, hs, hc, ht, List.lookup_cons, List.lookup_append]

/-- Counterexample to claim C8: with an explicitly supplied empty-string
username alongside a password and a token, the pair does not win — the
Basic branch is skipped by the truthiness check and the Bearer header is
set instead. -/
theorem authHeader_empty_username_pair_not_basic :
    authHeader (some "") (some "pw") (some "tok") = some "Bearer tok" ∧
    some "Bearer tok" ≠ some ("Basic " ++ b64encode ":pw") :=
  ⟨rfl, by decide⟩

/-- Claim C8 as amended: when a non-empty username and a non-empty
password are supplied, the session's Authorization header is Basic over
base64(username:password) and any token is ignored; when only a
non-empty token is supplied, it is Bearer token; with no credentials no
header is set. The header is computed once, at construction
(client.py lines 44-50). -/
theorem authHeader_precedence (u p t : String) (hu : u ≠ "") (hp : p ≠ "") :
    authHeader (some u) (some p) (some t) =
      some ("Basic " ++ b64encode (u ++ ":" ++ p)) ∧
    authHeader (some u) (some p) none =
      some ("Basic " ++ b64encode (u ++ ":" ++ p)) ∧
    (t ≠ "" → authHeader none none (some t) = some ("Bearer " ++ t)) ∧
    authHeader none none none = none := by
  have hu' : strTruthy (some u) = true := by
    show (!u.isEmpty) = true
    cases hemp : u.isEmpty
    · rfl
    · exact absurd ((String.isEmpty_iff _).mp hemp) hu
  have hp' : strTruthy (some p) = true := by
    show (!p.isEmpty) = true
    cases hemp : p.isEmpty
    · rfl
    · exact absurd ((String.isEmpty_iff _).mp hemp) hp
  refine ⟨?_, ?_, ?_, rfl⟩
  · rw [authHeader, hu', hp']
    rfl
  · rw [authHeader, hu', hp']
    rfl
  · intro htt
    have ht' : strTruthy (some t) = true := by
      show (!t.isEmpty) = true
      cases hemp : t.isEmpty
      · rfl
      · exact absurd ((String.isEmpty_iff _).mp hemp) htt
    rw [authHeader, ht']
    rfl

/-- Witness for the amended C8 at concrete credentials: user/pass beats a
token and base64 encodes as expected. -/
theorem authHeader_precedence_witness :
    authHeader (some "user") (some "pass") (some "tok") =
      some "Basic dXNlcjpwYXNz" := by
  rw [(authHeader_precedence "user" "pass" "tok" (by decide) (by decide)).1]
  decide

/-- Claim C9: for every file path, the binary upload's Content-Type is the
MIME type guessed from the extension — `image/png` for a `.png` path,
`application/octet-stream` when the extension is unrecognized — and its
Content-Disposition is an attachment naming the path's basename. -/
theorem uploadMedia_header_contract (filePath : String) :
    List.lookup "Content-Disposition" (uploadHeaders filePath) =
      some ("attachment; filename=\"" ++ pyBasename filePath ++ "\"") ∧
    List.lookup "Content-Type" (uploadHeaders filePath) =
      some ((guessType filePath).getD "application/octet-stream") ∧
    (extOf filePath = "png" →
      List.lookup "Content-Type" (uploadHeaders filePath) = some "image/png") ∧
    (guessType filePath = none →
      List.lookup "Content-Type" (uploadHeaders filePath) =
        some "application/octet-stream") := by
  refine ⟨?_, ?_, ?_, ?_⟩
  · simp [uploadHeaders, List.lookup_cons]
  · simp [uploadHeaders, List.lookup_cons]
  · intro h
    simp [uploadHeaders, List.lookup_cons, guessType, h, mimeTable]
  · intro h
    simp [uploadHeaders, List.lookup_cons, h]

/-- Counterexample to claim C10: `upload_media` called with an explicitly
supplied empty-string title issues a single POST and returns the first
response, not the metadata response the claim predicts for a call with a
metadata argument supplied. -/
theorem uploadMedia_supplied_empty_title_single_post :
    uploadMediaFlow (some "") none none (Json.num 1) (Json.num 2) =
      (Json.num 1, 1) := rfl

/-- Claim C10 as amended: when at least one of title/caption/alt_text is
supplied with a non-empty value and both calls succeed, `upload_media`
returns the response of the second POST (the metadata update) and issues
two POSTs; when none is supplied with a non-empty value, it issues
exactly one POST and returns its response. -/
theorem uploadMediaFlow_spec (title caption altText : Option String)
    (resp1 resp2 : Json) :
    ((strTruthy title || strTruthy caption || strTruthy altText) = true →
      uploadMediaFlow title caption altText resp1 resp2 = (resp2, 2)) ∧
    ((strTruthy title || strTruthy caption || strTruthy altText) = false →
      uploadMediaFlow title caption altText resp1 resp2 = (resp1, 1)) := by
  cases ht : strTruthy title <;> cases hc : strTruthy caption <;>
    cases ha : strTruthy altText <;>
    simp [uploadMediaFlow, uploadMetadata, ht, hc, ha]

end BoompahConnect
